import Mathlib

/-!
# pump_wash_control.cpp — wash-station sequencer

A shallow embedding of `src/esp32/pump_wash_control.cpp`
(visc_automated_workflow_V3) and a verification of its behaviour.  In the
repository the whole sketch sits inside one block comment (it is meant to be
pasted into the Arduino IDE); the embedding is of the sketch as written there.

The sketch is straight-line code over four Arduino primitives:
`digitalWrite`, `ledcWrite`, `delay` and `Serial.println`, plus
`Serial.available` / `Serial.read` in `loop`.  Every routine of the sketch is
a function `World → World`; the world carries the pin levels, the PWM duties,
a millisecond clock, the serial receive buffer, the serial output, and a
history with one entry per primitive executed.

Time model: `delay ms` advances the clock by exactly `ms`; every other
primitive is instantaneous.  Pin numbers, duties and durations are `int`
values that are non-negative and far below any overflow in every call the
sketch makes; they are natural numbers here.  Pin levels and PWM duties are
kept in two separate maps, as `digitalWrite` and `ledcWrite` address them.

Pin range: `digitalWrite` and `ledcWrite` take the pin as `uint8_t`, so an
`int` pin handed to them is narrowed modulo 256.  The embedding passes the pin
on unchanged, which is what the code does for every pin from 0 to 255 (the
eighteen configured pins are all below 40); a statement that quantifies over
pins is made for that range.
-/

namespace PumpWashControl

/-! ## Configuration constants (lines 6–45 of the sketch) -/

abbrev HIGH : Bool := true
abbrev LOW : Bool := false

-- Driver 1 (Pump 1, Pump 2)
abbrev ENABLE1 : Nat := 25
abbrev IN1 : Nat := 27
abbrev IN2 : Nat := 14
abbrev ENABLE2 : Nat := 33
abbrev IN3 : Nat := 32
abbrev IN4 : Nat := 23

-- Driver 2 (Pump 3, Pump 4)
abbrev ENABLE3 : Nat := 26
abbrev IN5 : Nat := 13
abbrev IN6 : Nat := 12
abbrev ENABLE4 : Nat := 18
abbrev IN7 : Nat := 19
abbrev IN8 : Nat := 21

-- Driver 3 (Pump 5, Pump 6)
abbrev ENABLE5 : Nat := 22
abbrev IN9 : Nat := 5
abbrev IN10 : Nat := 17
abbrev ENABLE6 : Nat := 16
abbrev IN11 : Nat := 4
abbrev IN12 : Nat := 2

-- Motor speeds
abbrev speedPWM_A : Nat := 170
abbrev speedPWM_B : Nat := 170
abbrev speedPWM_C : Nat := 170
abbrev speedPWM_D : Nat := 170
abbrev speedPWM_E : Nat := 210
abbrev speedPWM_F : Nat := 210
abbrev speedPWM_G : Nat := 160
abbrev speedPWM_H : Nat := 160
abbrev speedPWM_I : Nat := 160

abbrev PUMP_STAGE_TIME : Nat := 5000
abbrev WASH_STAGE_TIME : Nat := 10000

/-! ## The machine the sketch runs on -/

/-- One primitive call made by the sketch. -/
inductive Action where
  | digitalWrite (pin : Nat) (val : Bool)
  | ledcWrite (pin : Nat) (duty : Nat)
  | delay (ms : Nat)
  | println (line : String)

/-- History entry: the primitive executed, the clock value at which it began,
and the pin levels and PWM duties in force once it had taken effect (for a
`delay`, the outputs held for the whole of the delay). -/
structure Step where
  act : Action
  start : Nat
  level : Nat → Bool
  duty : Nat → Nat

/-- Everything the sketch can read or change.  `rx` is the serial receive
stream: each byte paired with the clock value at which it arrives, in arrival
order.  `tx` is the list of lines printed so far. -/
structure World where
  level : Nat → Bool
  duty : Nat → Nat
  clock : Nat
  rx : List (Nat × Char)
  tx : List String
  hist : List Step

/-- Append a history entry describing the current outputs. -/
def World.log (w : World) (a : Action) (start : Nat) : World :=
  { w with hist := w.hist ++ [{ act := a, start := start, level := w.level, duty := w.duty }] }

/-- Arduino `digitalWrite(pin, val)`: drive one pin, leave the others. -/
def digitalWrite (pin : Nat) (val : Bool) (w : World) : World :=
  World.log { w with level := fun p => if p = pin then val else w.level p }
    (Action.digitalWrite pin val) w.clock

/-- Arduino-ESP32 `ledcWrite(pin, duty)`: set the PWM duty of one pin. -/
def ledcWrite (pin : Nat) (duty : Nat) (w : World) : World :=
  World.log { w with duty := fun p => if p = pin then duty else w.duty p }
    (Action.ledcWrite pin duty) w.clock

/-- Arduino `delay(ms)`: the outputs are held while `ms` milliseconds pass. -/
def delay (ms : Nat) (w : World) : World :=
  { World.log w (Action.delay ms) w.clock with clock := w.clock + ms }

/-- Arduino `Serial.println(line)`. -/
def Serial_println (line : String) (w : World) : World :=
  World.log { w with tx := w.tx ++ [line] } (Action.println line) w.clock

/-- Arduino `Serial.available()`: a byte has arrived and is unread. -/
def Serial_available (w : World) : Bool :=
  match w.rx with
  | [] => false
  | (t, _) :: _ => decide (t ≤ w.clock)

/-- Arduino `Serial.read()`: take the oldest unread byte.  On an empty stream
the Arduino call yields -1, which as a `char` is byte 255. -/
def Serial_read (w : World) : Char × World :=
  match w.rx with
  | [] => (Char.ofNat 255, w)
  | (_, c) :: rest => (c, { w with rx := rest })

/-! ## Helper functions (lines 149–165) -/

def runMotor (in1 in2 enablePin speedPWM : Nat) (w : World) : World :=
  w |> digitalWrite in1 HIGH
    |> digitalWrite in2 LOW
    |> ledcWrite enablePin speedPWM

def runMotorReverse (in1 in2 enablePin speedPWM : Nat) (w : World) : World :=
  w |> digitalWrite in1 LOW
    |> digitalWrite in2 HIGH
    |> ledcWrite enablePin speedPWM

def stopMotor (in1 in2 enablePin : Nat) (w : World) : World :=
  w |> digitalWrite in1 LOW
    |> digitalWrite in2 LOW
    |> ledcWrite enablePin 0

/-! ## Station routines (lines 89–146) -/

def washStation1 (w : World) : World :=
  w |> runMotor IN1 IN2 ENABLE1 speedPWM_A
    |> delay PUMP_STAGE_TIME
    |> runMotor IN3 IN4 ENABLE2 speedPWM_G
    |> delay WASH_STAGE_TIME
    |> stopMotor IN1 IN2 ENABLE1
    |> runMotorReverse IN1 IN2 ENABLE1 speedPWM_B
    |> delay (PUMP_STAGE_TIME + WASH_STAGE_TIME)
    |> stopMotor IN3 IN4 ENABLE2
    |> stopMotor IN1 IN2 ENABLE1
    |> Serial_println "Wash Station 1 DONE"

def washStation2 (w : World) : World :=
  w |> runMotor IN5 IN6 ENABLE3 speedPWM_C
    |> delay PUMP_STAGE_TIME
    |> runMotor IN7 IN8 ENABLE4 speedPWM_H
    |> delay WASH_STAGE_TIME
    |> stopMotor IN5 IN6 ENABLE3
    |> runMotorReverse IN5 IN6 ENABLE3 speedPWM_D
    |> delay (PUMP_STAGE_TIME + WASH_STAGE_TIME)
    |> stopMotor IN7 IN8 ENABLE4
    |> stopMotor IN5 IN6 ENABLE3
    |> Serial_println "Wash Station 2 DONE"

def washStation3 (w : World) : World :=
  w |> runMotor IN9 IN10 ENABLE5 speedPWM_E
    |> delay PUMP_STAGE_TIME
    |> runMotor IN11 IN12 ENABLE6 speedPWM_I
    |> delay WASH_STAGE_TIME
    |> stopMotor IN9 IN10 ENABLE5
    |> runMotorReverse IN9 IN10 ENABLE5 speedPWM_F
    |> delay (PUMP_STAGE_TIME + WASH_STAGE_TIME)
    |> stopMotor IN11 IN12 ENABLE6
    |> stopMotor IN9 IN10 ENABLE5
    |> Serial_println "Wash Station 3 DONE"

/-! ## Emergency stop (lines 167–177) -/

def stopAll (w : World) : World :=
  w |> stopMotor IN1 IN2 ENABLE1
    |> stopMotor IN3 IN4 ENABLE2
    |> stopMotor IN5 IN6 ENABLE3
    |> stopMotor IN7 IN8 ENABLE4
    |> stopMotor IN9 IN10 ENABLE5
    |> stopMotor IN11 IN12 ENABLE6
    |> Serial_println "All Motors STOPPED"

/-! ## Main loop (lines 69–86) -/

def loop (w : World) : World :=
  if Serial_available w then
    let r := Serial_read w
    let input := r.1
    let w := r.2
    if input = '1' then
      w |> Serial_println "Starting Wash Station 1..." |> washStation1
    else if input = '2' then
      w |> Serial_println "Starting Wash Station 2..." |> washStation2
    else if input = '3' then
      w |> Serial_println "Starting Wash Station 3..." |> washStation3
    else if input = '0' then
      w |> Serial_println "Emergency STOP received!" |> stopAll
    else w
  else w

/-- The Arduino runtime calls `loop` over and over; `loopN n` is `n` calls. -/
def loopN : Nat → World → World
  | 0, w => w
  | n + 1, w => loopN n (loop w)

/-! ## Observations used to state the properties -/

/-- The primitives `f` executes when started in `w`, in order. -/
def stepsOf (f : World → World) (w : World) : List Step :=
  (f { w with hist := [] }).hist

/-- Whether history entry `s` is a delay that covers instant `t`
(half-open interval: from its start up to, not including, its end). -/
def Step.covers (s : Step) (t : Nat) : Bool :=
  match s.act with
  | Action.delay ms => decide (s.start ≤ t) && decide (t < s.start + ms)
  | _ => false

/-- The outputs held at instant `t`: the first delay of the history covering `t`. -/
def heldAt (hist : List Step) (t : Nat) : Option Step :=
  hist.find? (fun s => s.covers t)

/-- Motor on `(in1, in2, en)` runs forward at duty `d`. -/
def Forward (level : Nat → Bool) (duty : Nat → Nat) (in1 in2 en d : Nat) : Prop :=
  level in1 = HIGH ∧ level in2 = LOW ∧ duty en = d

/-- Motor on `(in1, in2, en)` runs in reverse at duty `d`. -/
def Reverse (level : Nat → Bool) (duty : Nat → Nat) (in1 in2 en d : Nat) : Prop :=
  level in1 = LOW ∧ level in2 = HIGH ∧ duty en = d

/-- Motor on `(in1, in2, en)` is idle: both direction pins LOW, duty 0. -/
def Idle (level : Nat → Bool) (duty : Nat → Nat) (in1 in2 en : Nat) : Prop :=
  level in1 = LOW ∧ level in2 = LOW ∧ duty en = 0

/-- The twelve direction pins IN1..IN12. -/
def directionPins : List Nat :=
  [IN1, IN2, IN3, IN4, IN5, IN6, IN7, IN8, IN9, IN10, IN11, IN12]

/-- The six enable pins ENABLE1..ENABLE6. -/
def enablePins : List Nat :=
  [ENABLE1, ENABLE2, ENABLE3, ENABLE4, ENABLE5, ENABLE6]

/-- The six direction-pin pairs, one per motor channel. -/
def motorPairs : List (Nat × Nat) :=
  [(IN1, IN2), (IN3, IN4), (IN5, IN6), (IN7, IN8), (IN9, IN10), (IN11, IN12)]

/-- The action writes no pin outside `dirs` (direction pins) and `ens`
(enable pins); delays and prints write no pin at all. -/
def Action.within (dirs ens : List Nat) : Action → Prop
  | Action.digitalWrite pin _ => pin ∈ dirs
  | Action.ledcWrite pin _ => pin ∈ ens
  | Action.delay _ => True
  | Action.println _ => True

/-- The run of `f` from `w` touches only `dirs` and `ens`: every primitive it
executes writes only those pins, and the level of every pin outside `dirs` and
the duty of every pin outside `ens` is, after every primitive and on return,
what it was in `w`. -/
def FramedRun (f : World → World) (dirs ens : List Nat) (w : World) : Prop :=
  (∀ s ∈ stepsOf f w, s.act.within dirs ens ∧
    (∀ p, p ∉ dirs → s.level p = w.level p) ∧ (∀ p, p ∉ ens → s.duty p = w.duty p)) ∧
  (∀ p, p ∉ dirs → (f w).level p = w.level p) ∧
  (∀ p, p ∉ ens → (f w).duty p = w.duty p)

/-- No motor channel has both of its direction pins HIGH. -/
def NoShort (level : Nat → Bool) : Prop :=
  ∀ pr ∈ motorPairs, ¬ (level pr.1 = HIGH ∧ level pr.2 = HIGH)

/-- A world with every output idle, clock 0, nothing printed, and the given
serial input still to arrive. -/
def idleWorld (rx : List (Nat × Char)) : World :=
  { level := fun _ => LOW, duty := fun _ => 0, clock := 0, rx := rx, tx := [], hist := [] }

/-- Every direction pin of the world is LOW. -/
def AllLow (w : World) : Prop :=
  ∀ p ∈ directionPins, w.level p = LOW

/-- The generic station procedure as the specification words it: run the pump
forward, wait 5000, run the washer, wait 10000, stop the pump and run it in
reverse, wait 15000, stop the washer, stop the pump. -/
def station (pIn1 pIn2 pEn wIn1 wIn2 wEn fwd wash rev : Nat) (w : World) : World :=
  w |> runMotor pIn1 pIn2 pEn fwd
    |> delay 5000
    |> runMotor wIn1 wIn2 wEn wash
    |> delay 10000
    |> stopMotor pIn1 pIn2 pEn
    |> runMotorReverse pIn1 pIn2 pEn rev
    |> delay 15000
    |> stopMotor wIn1 wIn2 wEn
    |> stopMotor pIn1 pIn2 pEn

/-- Pump 1 running forward at its configured speed, everything else idle. -/
def runningPump1 : World :=
  runMotor IN1 IN2 ENABLE1 speedPWM_A (idleWorld [])

/-- Station 1 is requested at 0 ms and the stop command arrives at 7000 ms,
with every output idle beforehand. -/
def stopAt7000 : World :=
  idleWorld [(0, '1'), (7000, '0')]

/-! ## Effect of each primitive on each component of the world -/

@[simp]
theorem digitalWrite_level (pin : Nat) (val : Bool) (w : World) (p : Nat) :
    (digitalWrite pin val w).level p = if p = pin then val else w.level p := rfl

@[simp]
theorem digitalWrite_duty (pin : Nat) (val : Bool) (w : World) :
    (digitalWrite pin val w).duty = w.duty := rfl

@[simp]
theorem digitalWrite_clock (pin : Nat) (val : Bool) (w : World) :
    (digitalWrite pin val w).clock = w.clock := rfl

@[simp]
theorem digitalWrite_rx (pin : Nat) (val : Bool) (w : World) :
    (digitalWrite pin val w).rx = w.rx := rfl

@[simp]
theorem digitalWrite_tx (pin : Nat) (val : Bool) (w : World) :
    (digitalWrite pin val w).tx = w.tx := rfl

@[simp]
theorem ledcWrite_level (pin duty : Nat) (w : World) :
    (ledcWrite pin duty w).level = w.level := rfl

@[simp]
theorem ledcWrite_duty (pin duty : Nat) (w : World) (p : Nat) :
    (ledcWrite pin duty w).duty p = if p = pin then duty else w.duty p := rfl

@[simp]
theorem ledcWrite_clock (pin duty : Nat) (w : World) :
    (ledcWrite pin duty w).clock = w.clock := rfl

@[simp]
theorem ledcWrite_rx (pin duty : Nat) (w : World) :
    (ledcWrite pin duty w).rx = w.rx := rfl

@[simp]
theorem ledcWrite_tx (pin duty : Nat) (w : World) :
    (ledcWrite pin duty w).tx = w.tx := rfl

@[simp]
theorem delay_level (ms : Nat) (w : World) : (delay ms w).level = w.level := rfl

@[simp]
theorem delay_duty (ms : Nat) (w : World) : (delay ms w).duty = w.duty := rfl

@[simp]
theorem delay_clock (ms : Nat) (w : World) : (delay ms w).clock = w.clock + ms := rfl

@[simp]
theorem delay_rx (ms : Nat) (w : World) : (delay ms w).rx = w.rx := rfl

@[simp]
theorem delay_tx (ms : Nat) (w : World) : (delay ms w).tx = w.tx := rfl

@[simp]
theorem println_level (line : String) (w : World) :
    (Serial_println line w).level = w.level := rfl

@[simp]
theorem println_duty (line : String) (w : World) :
    (Serial_println line w).duty = w.duty := rfl

@[simp]
theorem println_clock (line : String) (w : World) :
    (Serial_println line w).clock = w.clock := rfl

@[simp]
theorem println_rx (line : String) (w : World) :
    (Serial_println line w).rx = w.rx := rfl

@[simp]
theorem println_tx (line : String) (w : World) :
    (Serial_println line w).tx = w.tx ++ [line] := rfl

@[simp]
theorem digitalWrite_hist (pin : Nat) (val : Bool) (w : World) :
    (digitalWrite pin val w).hist =
      w.hist ++ [{ act := Action.digitalWrite pin val, start := w.clock,
                   level := fun p => if p = pin then val else w.level p, duty := w.duty }] := rfl

@[simp]
theorem ledcWrite_hist (pin duty : Nat) (w : World) :
    (ledcWrite pin duty w).hist =
      w.hist ++ [{ act := Action.ledcWrite pin duty, start := w.clock,
                   level := w.level, duty := fun p => if p = pin then duty else w.duty p }] := rfl

@[simp]
theorem delay_hist (ms : Nat) (w : World) :
    (delay ms w).hist =
      w.hist ++ [{ act := Action.delay ms, start := w.clock,
                   level := w.level, duty := w.duty }] := rfl

@[simp]
theorem println_hist (line : String) (w : World) :
    (Serial_println line w).hist =
      w.hist ++ [{ act := Action.println line, start := w.clock,
                   level := w.level, duty := w.duty }] := rfl

/-! ## stopMotor -/

/-- C8: for all pins `in1`, `in2`, `enablePin` of the primitives' pin range
(0 to 255) and every prior state, after `stopMotor in1 in2 enablePin` both
`in1` and `in2` are LOW, the duty on `enablePin` is 0, and the level of every
other pin and the duty of every other pin are as before. -/
theorem stopMotor_idles_and_frames (in1 in2 enablePin : Nat) (w : World)
    (_hin1 : in1 < 256) (_hin2 : in2 < 256) (_hen : enablePin < 256) :
    (stopMotor in1 in2 enablePin w).level in1 = LOW ∧
    (stopMotor in1 in2 enablePin w).level in2 = LOW ∧
    (stopMotor in1 in2 enablePin w).duty enablePin = 0 ∧
    (∀ p, p ≠ in1 → p ≠ in2 → (stopMotor in1 in2 enablePin w).level p = w.level p) ∧
    (∀ p, p ≠ enablePin → (stopMotor in1 in2 enablePin w).duty p = w.duty p) := by
  refine ⟨?_, ?_, ?_, ?_, ?_⟩
  · simp [stopMotor, digitalWrite, ledcWrite, World.log]
  · simp [stopMotor, digitalWrite, ledcWrite, World.log]
  · simp [stopMotor, digitalWrite, ledcWrite, World.log]
  · intro p h1 h2
    simp [stopMotor, digitalWrite, ledcWrite, World.log, h1, h2]
  · intro p h
    simp [stopMotor, digitalWrite, ledcWrite, World.log, h]

/-- Witness for C8: pump 1 running forward at 170, then stopped. -/
theorem stopMotor_idles_and_frames_witness :
    (IN1 < 256 ∧ IN2 < 256 ∧ ENABLE1 < 256) ∧
    (runningPump1.level IN1 = HIGH ∧ runningPump1.duty ENABLE1 = 170) ∧
    (stopMotor IN1 IN2 ENABLE1 runningPump1).level IN1 = LOW ∧
    (stopMotor IN1 IN2 ENABLE1 runningPump1).level IN2 = LOW ∧
    (stopMotor IN1 IN2 ENABLE1 runningPump1).duty ENABLE1 = 0 ∧
    (∀ p, p ≠ IN1 → p ≠ IN2 →
      (stopMotor IN1 IN2 ENABLE1 runningPump1).level p = runningPump1.level p) ∧
    (∀ p, p ≠ ENABLE1 →
      (stopMotor IN1 IN2 ENABLE1 runningPump1).duty p = runningPump1.duty p) :=
  ⟨by decide, ⟨rfl, rfl⟩,
   stopMotor_idles_and_frames IN1 IN2 ENABLE1 runningPump1 (by decide) (by decide) (by decide)⟩

/-! ## stopAll -/

/-- Writing to pin `a` the value it already has does not change what is read at `p`. -/
theorem ite_same_value {α : Type} (f : Nat → α) (p a : Nat) (v x : α)
    (hf : f a = v) (hx : x = f p) : (if p = a then v else x) = f p := by
  by_cases h : p = a
  · subst h; simp [hf]
  · simp [h, hx]

/-- C2: for every prior state, when `stopAll` returns all twelve direction pins
are LOW and the duty on all six enable pins is 0; and on a state where they
already are, `stopAll` leaves every pin level and every duty unchanged. -/
theorem stopAll_all_idle (w : World) :
    (∀ p ∈ directionPins, (stopAll w).level p = LOW) ∧
    (∀ p ∈ enablePins, (stopAll w).duty p = 0) ∧
    ((∀ p ∈ directionPins, w.level p = LOW) → (∀ p ∈ enablePins, w.duty p = 0) →
      (stopAll w).level = w.level ∧ (stopAll w).duty = w.duty) := by
  refine ⟨?_, ?_, ?_⟩
  · simp [directionPins, stopAll, stopMotor]
  · simp [enablePins, stopAll, stopMotor]
  · intro hl hd
    simp only [directionPins, enablePins, List.forall_mem_cons, List.mem_singleton,
      List.not_mem_nil, forall_eq, IsEmpty.forall_iff, implies_true, and_true] at hl hd
    obtain ⟨l1, l2, l3, l4, l5, l6, l7, l8, l9, l10, l11, l12⟩ := hl
    obtain ⟨d1, d2, d3, d4, d5, d6⟩ := hd
    constructor
    · funext p
      simp only [stopAll, stopMotor, println_level, ledcWrite_level, digitalWrite_level]
      repeat (first | rfl | (refine ite_same_value w.level p _ _ _ (by assumption) ?_))
    · funext p
      simp only [stopAll, stopMotor, println_duty, ledcWrite_duty, digitalWrite_duty]
      repeat (first | rfl | (refine ite_same_value w.duty p _ _ _ (by assumption) ?_))

/-- Witness for C2: `stopAll` on the all-idle world changes no level and no duty. -/
theorem stopAll_all_idle_witness :
    (stopAll (idleWorld [])).level = (idleWorld []).level ∧
    (stopAll (idleWorld [])).duty = (idleWorld []).duty :=
  (stopAll_all_idle (idleWorld [])).2.2 (fun _ _ => rfl) (fun _ _ => rfl)

/-! ## Duration and final state of a station run -/

/-- C4: for each of the three station routines and every initial state, the
run returns exactly 30000 ms after it started (5000 + 10000 + 15000), and on
return the station's pump channel and washer channel are both idle (direction
pins LOW, duty 0). -/
theorem washStation_returns_after_30000_idle (w : World) :
    PUMP_STAGE_TIME + WASH_STAGE_TIME + (PUMP_STAGE_TIME + WASH_STAGE_TIME) = 30000 ∧
    ((washStation1 w).clock = w.clock + 30000 ∧
      Idle (washStation1 w).level (washStation1 w).duty IN1 IN2 ENABLE1 ∧
      Idle (washStation1 w).level (washStation1 w).duty IN3 IN4 ENABLE2) ∧
    ((washStation2 w).clock = w.clock + 30000 ∧
      Idle (washStation2 w).level (washStation2 w).duty IN5 IN6 ENABLE3 ∧
      Idle (washStation2 w).level (washStation2 w).duty IN7 IN8 ENABLE4) ∧
    ((washStation3 w).clock = w.clock + 30000 ∧
      Idle (washStation3 w).level (washStation3 w).duty IN9 IN10 ENABLE5 ∧
      Idle (washStation3 w).level (washStation3 w).duty IN11 IN12 ENABLE6) := by
  refine ⟨rfl, ⟨?_, ?_, ?_⟩, ⟨?_, ?_, ?_⟩, ⟨?_, ?_, ?_⟩⟩ <;>
    simp [Idle, washStation1, washStation2, washStation3, runMotor, runMotorReverse,
      stopMotor, Nat.add_assoc] <;> rfl

/-! ## One generic sequence, three parameterisations -/

/-- C9: on every initial state each `washStationN` is the generic `station`
procedure at that station's pins and speeds, followed only by its own DONE
line: same primitives, same order, same delays, same resulting world. -/
theorem washStation_eq_station (w : World) :
    washStation1 w =
      Serial_println "Wash Station 1 DONE"
        (station IN1 IN2 ENABLE1 IN3 IN4 ENABLE2 170 160 170 w) ∧
    washStation2 w =
      Serial_println "Wash Station 2 DONE"
        (station IN5 IN6 ENABLE3 IN7 IN8 ENABLE4 170 160 170 w) ∧
    washStation3 w =
      Serial_println "Wash Station 3 DONE"
        (station IN9 IN10 ENABLE5 IN11 IN12 ENABLE6 210 160 210 w) :=
  ⟨rfl, rfl, rfl⟩

/-! ## Unknown input characters -/

/-- C5: for every input character other than '0', '1', '2', '3' and every
state, the iteration of `loop` that reads it leaves every pin level and every
PWM duty as it was, spends no delay time, and executes no output primitive. -/
theorem loop_unknown_char_ignored (w : World) (t : Nat) (c : Char) (rest : List (Nat × Char))
    (hrx : w.rx = (t, c) :: rest) (ht : t ≤ w.clock)
    (h0 : c ≠ '0') (h1 : c ≠ '1') (h2 : c ≠ '2') (h3 : c ≠ '3') :
    (loop w).level = w.level ∧ (loop w).duty = w.duty ∧ (loop w).clock = w.clock ∧
    stepsOf loop w = [] := by
  simp [loop, stepsOf, Serial_available, Serial_read, hrx, ht, h0, h1, h2, h3]

/-- Witness for C5: the character 'x' read in the all-idle world. -/
theorem loop_unknown_char_ignored_witness :
    (loop (idleWorld [(0, 'x')])).level = (idleWorld [(0, 'x')]).level ∧
    (loop (idleWorld [(0, 'x')])).duty = (idleWorld [(0, 'x')]).duty ∧
    (loop (idleWorld [(0, 'x')])).clock = (idleWorld [(0, 'x')]).clock ∧
    stepsOf loop (idleWorld [(0, 'x')]) = [] :=
  loop_unknown_char_ignored (idleWorld [(0, 'x')]) 0 'x' [] rfl (Nat.le_refl 0)
    (by decide) (by decide) (by decide) (by decide)

/-- C6, counterexample: the iteration of `loop` that reads 'x' consumes the
character and leaves the serial output without a single line. -/
theorem loop_unknown_char_prints_nothing :
    (idleWorld [(0, 'x')]).rx = [(0, 'x')] ∧
    (loop (idleWorld [(0, 'x')])).rx = [] ∧
    ¬ ∃ line, line ∈ (loop (idleWorld [(0, 'x')])).tx := by
  simp [loop, idleWorld, Serial_available, Serial_read]

/-- C6, amended: for every input character other than '0', '1', '2', '3', the
iteration of `loop` that reads it consumes the character and writes no line to
the serial output: the request is dropped without any notification. -/
theorem loop_unknown_char_silent (w : World) (t : Nat) (c : Char) (rest : List (Nat × Char))
    (hrx : w.rx = (t, c) :: rest) (ht : t ≤ w.clock)
    (h0 : c ≠ '0') (h1 : c ≠ '1') (h2 : c ≠ '2') (h3 : c ≠ '3') :
    (loop w).rx = rest ∧ (loop w).tx = w.tx := by
  simp [loop, Serial_available, Serial_read, hrx, ht, h0, h1, h2, h3]

/-- Witness for the amended C6: the character 'x' read in the all-idle world. -/
theorem loop_unknown_char_silent_witness :
    (loop (idleWorld [(0, 'x')])).rx = [] ∧
    (loop (idleWorld [(0, 'x')])).tx = (idleWorld [(0, 'x')]).tx :=
  loop_unknown_char_silent (idleWorld [(0, 'x')]) 0 'x' [] rfl (Nat.le_refl 0)
    (by decide) (by decide) (by decide) (by decide)

/-! ## The station-1 scenario -/

/-- C1: `washStation1` started at clock 0 with pump and washer idle holds, for
every instant of [0, 5000), pump Forward at 170 and washer Idle; for every
instant of [5000, 15000), washer Forward at 160 and pump Forward at 170; for
every instant of [15000, 30000), pump Reverse at 170 and washer Forward at
160; and returns at clock 30000 with pump and washer Idle at duty 0. -/
theorem washStation1_scenario (w : World) (h0 : w.clock = 0)
    (hp : Idle w.level w.duty IN1 IN2 ENABLE1) (hw : Idle w.level w.duty IN3 IN4 ENABLE2) :
    (∀ t, t < 5000 → ∃ s, heldAt (stepsOf washStation1 w) t = some s ∧
      Forward s.level s.duty IN1 IN2 ENABLE1 170 ∧ Idle s.level s.duty IN3 IN4 ENABLE2) ∧
    (∀ t, 5000 ≤ t → t < 15000 → ∃ s, heldAt (stepsOf washStation1 w) t = some s ∧
      Forward s.level s.duty IN3 IN4 ENABLE2 160 ∧ Forward s.level s.duty IN1 IN2 ENABLE1 170) ∧
    (∀ t, 15000 ≤ t → t < 30000 → ∃ s, heldAt (stepsOf washStation1 w) t = some s ∧
      Reverse s.level s.duty IN1 IN2 ENABLE1 170 ∧ Forward s.level s.duty IN3 IN4 ENABLE2 160) ∧
    (washStation1 w).clock = 30000 ∧
    Idle (washStation1 w).level (washStation1 w).duty IN1 IN2 ENABLE1 ∧
    Idle (washStation1 w).level (washStation1 w).duty IN3 IN4 ENABLE2 := by
  obtain ⟨p1, p2, p3⟩ := hp
  obtain ⟨w1, w2, w3⟩ := hw
  refine ⟨fun t ht => ?_, fun t ht1 ht2 => ?_, fun t ht1 ht2 => ?_, ?_, ?_, ?_⟩
  · simp [heldAt, stepsOf, washStation1, runMotor, runMotorReverse, stopMotor, Step.covers,
      Forward, Idle, h0, ht, w1, w2, w3]
  · have a1 : ¬ t < 5000 := Nat.not_lt.mpr ht1
    simp [heldAt, stepsOf, washStation1, runMotor, runMotorReverse, stopMotor, Step.covers,
      Forward, h0, ht1, ht2, a1, PUMP_STAGE_TIME, WASH_STAGE_TIME]
  · have a1 : ¬ t < 5000 := by omega
    have a2 : ¬ t < 15000 := Nat.not_lt.mpr ht1
    have a3 : 5000 ≤ t := by omega
    simp [heldAt, stepsOf, washStation1, runMotor, runMotorReverse, stopMotor, Step.covers,
      Forward, Reverse, h0, ht1, ht2, a1, a2, a3, PUMP_STAGE_TIME, WASH_STAGE_TIME]
  · simp [washStation1, runMotor, runMotorReverse, stopMotor, h0]
    rfl
  · simp [Idle, washStation1, runMotor, runMotorReverse, stopMotor]
  · simp [Idle, washStation1, runMotor, runMotorReverse, stopMotor]

/-- Witness for C1: the all-idle world at clock 0; the outputs held at 4999 ms,
and the return at 30000 ms with both actuators idle. -/
theorem washStation1_scenario_witness :
    (idleWorld []).clock = 0 ∧
    (∃ s, heldAt (stepsOf washStation1 (idleWorld [])) 4999 = some s ∧
      Forward s.level s.duty IN1 IN2 ENABLE1 170 ∧ Idle s.level s.duty IN3 IN4 ENABLE2) ∧
    (washStation1 (idleWorld [])).clock = 30000 :=
  ⟨rfl,
   (washStation1_scenario (idleWorld []) rfl ⟨rfl, rfl, rfl⟩ ⟨rfl, rfl, rfl⟩).1 4999 (by decide),
   (washStation1_scenario (idleWorld []) rfl ⟨rfl, rfl, rfl⟩ ⟨rfl, rfl, rfl⟩).2.2.2.1⟩

/-! ## Stations do not share actuators -/

/-- C7: for every initial state, `washStationN` writes only the four direction
pins and two enable pins of driver N, and the level and duty of every other
pin are, after every primitive of the run and on return, what they were
before; the eighteen configured pin numbers are pairwise distinct, so the pins
of the other two stations are among those untouched. -/
theorem washStation_frame (w : World) :
    FramedRun washStation1 [IN1, IN2, IN3, IN4] [ENABLE1, ENABLE2] w ∧
    FramedRun washStation2 [IN5, IN6, IN7, IN8] [ENABLE3, ENABLE4] w ∧
    FramedRun washStation3 [IN9, IN10, IN11, IN12] [ENABLE5, ENABLE6] w ∧
    (directionPins ++ enablePins).Nodup := by
  refine ⟨⟨?_, ?_, ?_⟩, ⟨?_, ?_, ?_⟩, ⟨?_, ?_, ?_⟩, by decide⟩
  all_goals
    simp only [stepsOf, washStation1, washStation2, washStation3, runMotor, runMotorReverse,
      stopMotor, println_hist, delay_hist, ledcWrite_hist, digitalWrite_hist, println_level,
      delay_level, ledcWrite_level, digitalWrite_level, println_duty, delay_duty,
      ledcWrite_duty, digitalWrite_duty, List.nil_append, List.append_assoc,
      List.cons_append, List.mem_cons, List.mem_singleton, List.not_mem_nil, not_or,
      forall_eq_or_imp, forall_eq, Action.within, or_false, and_imp]
  all_goals repeat' apply And.intro
  all_goals (intros; simp [*])

/-! ## A stop command during a station run -/

/-- C3, the code at the failing input: with '1' read at 0 ms and '0' arriving
at 7000 ms, the stop is not immediate.  The outputs held at 7000 ms are pump
Forward at 170 and washer Forward at 160 (neither is idle), the third stage is
still run (pump Reverse at 20000 ms), and when the station routine returns at
30000 ms the '0' is still unread. -/
theorem stop_at_7000_not_immediate :
    (∃ s, heldAt (loop stopAt7000).hist 7000 = some s ∧
      Forward s.level s.duty IN1 IN2 ENABLE1 170 ∧ Forward s.level s.duty IN3 IN4 ENABLE2 160 ∧
      ¬ Idle s.level s.duty IN1 IN2 ENABLE1 ∧ ¬ Idle s.level s.duty IN3 IN4 ENABLE2) ∧
    (∃ s, heldAt (loop stopAt7000).hist 20000 = some s ∧
      Reverse s.level s.duty IN1 IN2 ENABLE1 170) ∧
    (loop stopAt7000).clock = 30000 ∧
    (loop stopAt7000).rx = [(7000, '0')] := by
  simp [stopAt7000, idleWorld, loop, Serial_available, Serial_read, heldAt, Step.covers,
    washStation1, runMotor, runMotorReverse, stopMotor, Forward, Reverse, Idle,
    PUMP_STAGE_TIME, WASH_STAGE_TIME]

/-! ## No motor is driven with both direction inputs HIGH -/

/-- From all direction pins LOW, `washStation1` returns with all direction pins LOW and
no primitive it executes leaves a pair HIGH/HIGH. -/
theorem washStation1_noShort (w : World) (hl : AllLow w) (hh : ∀ s ∈ w.hist, NoShort s.level) :
    AllLow (washStation1 w) ∧ ∀ s ∈ (washStation1 w).hist, NoShort s.level := by
  simp only [AllLow, directionPins, List.forall_mem_cons, List.mem_singleton,
    List.not_mem_nil, forall_eq, IsEmpty.forall_iff, implies_true, and_true] at hl
  obtain ⟨l1, l2, l3, l4, l5, l6, l7, l8, l9, l10, l11, l12⟩ := hl
  constructor
  · simp [AllLow, directionPins, washStation1, runMotor, runMotorReverse, stopMotor, *]
  · simp only [washStation1, runMotor, runMotorReverse, stopMotor, println_hist, delay_hist,
      ledcWrite_hist, digitalWrite_hist, println_level, delay_level, ledcWrite_level,
      digitalWrite_level, List.append_assoc, List.cons_append, List.nil_append,
      List.forall_mem_append]
    refine ⟨hh, ?_⟩
    simp only [List.mem_cons, List.mem_singleton, List.not_mem_nil, or_false,
      forall_eq_or_imp, forall_eq, NoShort, motorPairs]
    repeat' apply And.intro
    all_goals simp [*]

/-- From all direction pins LOW, `washStation2` returns with all direction pins LOW and
no primitive it executes leaves a pair HIGH/HIGH. -/
theorem washStation2_noShort (w : World) (hl : AllLow w) (hh : ∀ s ∈ w.hist, NoShort s.level) :
    AllLow (washStation2 w) ∧ ∀ s ∈ (washStation2 w).hist, NoShort s.level := by
  simp only [AllLow, directionPins, List.forall_mem_cons, List.mem_singleton,
    List.not_mem_nil, forall_eq, IsEmpty.forall_iff, implies_true, and_true] at hl
  obtain ⟨l1, l2, l3, l4, l5, l6, l7, l8, l9, l10, l11, l12⟩ := hl
  constructor
  · simp [AllLow, directionPins, washStation2, runMotor, runMotorReverse, stopMotor, *]
  · simp only [washStation2, runMotor, runMotorReverse, stopMotor, println_hist, delay_hist,
      ledcWrite_hist, digitalWrite_hist, println_level, delay_level, ledcWrite_level,
      digitalWrite_level, List.append_assoc, List.cons_append, List.nil_append,
      List.forall_mem_append]
    refine ⟨hh, ?_⟩
    simp only [List.mem_cons, List.mem_singleton, List.not_mem_nil, or_false,
      forall_eq_or_imp, forall_eq, NoShort, motorPairs]
    repeat' apply And.intro
    all_goals simp [*]

/-- From all direction pins LOW, `washStation3` returns with all direction pins LOW and
no primitive it executes leaves a pair HIGH/HIGH. -/
theorem washStation3_noShort (w : World) (hl : AllLow w) (hh : ∀ s ∈ w.hist, NoShort s.level) :
    AllLow (washStation3 w) ∧ ∀ s ∈ (washStation3 w).hist, NoShort s.level := by
  simp only [AllLow, directionPins, List.forall_mem_cons, List.mem_singleton,
    List.not_mem_nil, forall_eq, IsEmpty.forall_iff, implies_true, and_true] at hl
  obtain ⟨l1, l2, l3, l4, l5, l6, l7, l8, l9, l10, l11, l12⟩ := hl
  constructor
  · simp [AllLow, directionPins, washStation3, runMotor, runMotorReverse, stopMotor, *]
  · simp only [washStation3, runMotor, runMotorReverse, stopMotor, println_hist, delay_hist,
      ledcWrite_hist, digitalWrite_hist, println_level, delay_level, ledcWrite_level,
      digitalWrite_level, List.append_assoc, List.cons_append, List.nil_append,
      List.forall_mem_append]
    refine ⟨hh, ?_⟩
    simp only [List.mem_cons, List.mem_singleton, List.not_mem_nil, or_false,
      forall_eq_or_imp, forall_eq, NoShort, motorPairs]
    repeat' apply And.intro
    all_goals simp [*]

/-- From all direction pins LOW, `stopAll` returns with all direction pins LOW and
no primitive it executes leaves a pair HIGH/HIGH. -/
theorem stopAll_noShort (w : World) (hl : AllLow w) (hh : ∀ s ∈ w.hist, NoShort s.level) :
    AllLow (stopAll w) ∧ ∀ s ∈ (stopAll w).hist, NoShort s.level := by
  simp only [AllLow, directionPins, List.forall_mem_cons, List.mem_singleton,
    List.not_mem_nil, forall_eq, IsEmpty.forall_iff, implies_true, and_true] at hl
  obtain ⟨l1, l2, l3, l4, l5, l6, l7, l8, l9, l10, l11, l12⟩ := hl
  constructor
  · simp [AllLow, directionPins, stopAll, runMotor, runMotorReverse, stopMotor, *]
  · simp only [stopAll, runMotor, runMotorReverse, stopMotor, println_hist, delay_hist,
      ledcWrite_hist, digitalWrite_hist, println_level, delay_level, ledcWrite_level,
      digitalWrite_level, List.append_assoc, List.cons_append, List.nil_append,
      List.forall_mem_append]
    refine ⟨hh, ?_⟩
    simp only [List.mem_cons, List.mem_singleton, List.not_mem_nil, or_false,
      forall_eq_or_imp, forall_eq, NoShort, motorPairs]
    repeat' apply And.intro
    all_goals simp [*]

/-- Printing a line changes no pin. -/
theorem println_noShort (line : String) (w : World) (hl : AllLow w)
    (hh : ∀ s ∈ w.hist, NoShort s.level) :
    AllLow (Serial_println line w) ∧ ∀ s ∈ (Serial_println line w).hist, NoShort s.level := by
  refine ⟨hl, ?_⟩
  intro s hs
  rw [println_hist, List.mem_append, List.mem_singleton] at hs
  rcases hs with hs | rfl
  · exact hh s hs
  · intro pr hpr
    have h1 : w.level pr.1 = LOW := by
      apply hl
      simp only [motorPairs, List.mem_cons, List.mem_singleton, List.not_mem_nil, or_false] at hpr
      rcases hpr with rfl | rfl | rfl | rfl | rfl | rfl <;> simp [directionPins]
    simp [h1]

/-- Reading a byte changes no pin and adds no history entry. -/
theorem read_noShort (w : World) (hl : AllLow w) (hh : ∀ s ∈ w.hist, NoShort s.level) :
    AllLow (Serial_read w).2 ∧ ∀ s ∈ (Serial_read w).2.hist, NoShort s.level := by
  unfold Serial_read
  split
  · exact ⟨hl, hh⟩
  · exact ⟨hl, hh⟩

/-- One iteration of `loop` keeps the invariant, whatever byte it reads. -/
theorem loop_noShort (w : World) (hl : AllLow w) (hh : ∀ s ∈ w.hist, NoShort s.level) :
    AllLow (loop w) ∧ ∀ s ∈ (loop w).hist, NoShort s.level := by
  have hr := read_noShort w hl hh
  unfold loop
  simp only []
  split_ifs
  · exact washStation1_noShort _ (println_noShort _ _ hr.1 hr.2).1 (println_noShort _ _ hr.1 hr.2).2
  · exact washStation2_noShort _ (println_noShort _ _ hr.1 hr.2).1 (println_noShort _ _ hr.1 hr.2).2
  · exact washStation3_noShort _ (println_noShort _ _ hr.1 hr.2).1 (println_noShort _ _ hr.1 hr.2).2
  · exact stopAll_noShort _ (println_noShort _ _ hr.1 hr.2).1 (println_noShort _ _ hr.1 hr.2).2
  · exact hr
  · exact ⟨hl, hh⟩

/-- Any number of iterations of `loop` keeps the invariant. -/
theorem loopN_noShort (n : Nat) : ∀ w : World, AllLow w → (∀ s ∈ w.hist, NoShort s.level) →
    AllLow (loopN n w) ∧ ∀ s ∈ (loopN n w).hist, NoShort s.level := by
  induction n with
  | zero => intro w hl hh; exact ⟨hl, hh⟩
  | succ n ih =>
    intro w hl hh
    have h := loop_noShort w hl hh
    exact ih (loop w) h.1 h.2

/-- C10: starting from a state in which all twelve direction pins are LOW, for
every serial input stream and every number of `loop` iterations, after every
single primitive executed (each individual `digitalWrite` included) none of
the six direction-pin pairs has both pins HIGH. -/
theorem loop_never_shorts (w : World) (hl : ∀ p ∈ directionPins, w.level p = LOW) (n : Nat) :
    ∀ s ∈ stepsOf (loopN n) w, NoShort s.level :=
  (loopN_noShort n { w with hist := [] } hl (fun _ h => absurd h (List.not_mem_nil _))).2

/-- Witness for C10: stations 1, 2, 3 and a stop requested in turn from the
all-idle world, four iterations of `loop`. -/
theorem loop_never_shorts_witness :
    (∀ p ∈ directionPins, (idleWorld [(0, '1'), (0, '2'), (0, '3'), (0, '0')]).level p = LOW) ∧
    ∀ s ∈ stepsOf (loopN 4) (idleWorld [(0, '1'), (0, '2'), (0, '3'), (0, '0')]),
      NoShort s.level :=
  ⟨fun _ _ => rfl,
   loop_never_shorts (idleWorld [(0, '1'), (0, '2'), (0, '3'), (0, '0')]) (fun _ _ => rfl) 4⟩

end PumpWashControl
